import Mathlib

/-!
Shallow embedding of the rocket-enumform crate (src/lib.rs): the `UrlEncoded`
guard for application/x-www-form-urlencoded request bodies.

The structured codec (`serde_urlencoded`) and the framework's bounded body
reader (`Data::open(limit).into_string()`) are external to the repository;
the spec treats them as opaque collaborators. Here the codec appears as an
explicit function parameter `dec : String → Except CodecError T`
(resp. `enc : T → Except SerError String`), and the bounded reader is
modelled from the spec (section 4.1). Everything else is translated from
src/lib.rs.
-/

namespace RocketEnumform

/-- Subset of `std::io::ErrorKind` relevant to the guard: the distinguished
truncation kind, and an opaque tag for every other kind. -/
inductive IoErrorKind : Type
  | unexpectedEof : IoErrorKind
  | other : Nat → IoErrorKind
deriving DecidableEq

/-- `std::io::Error`: a kind together with a message. -/
structure IoError : Type where
  kind : IoErrorKind
  msg : String
deriving DecidableEq

/-- The structured codec error (`serde_urlencoded::de::Error`). Opaque to the
guard: it is carried and logged, never inspected. Modelled as a message. -/
structure CodecError : Type where
  msg : String
deriving DecidableEq

/-- The serializer error (`serde_urlencoded::ser::Error`), likewise opaque. -/
structure SerError : Type where
  msg : String
deriving DecidableEq

/-- `rocket::http::Status` values produced by this crate. -/
inductive Status : Type
  | payloadTooLarge
  | unprocessableEntity
  | badRequest
  | internalServerError
deriving DecidableEq

/-- The numeric HTTP status code of each `Status` value. -/
def Status.code : Status → Nat
  | .payloadTooLarge => 413
  | .unprocessableEntity => 422
  | .badRequest => 400
  | .internalServerError => 500

/-- `enum Error<'a>` of src/lib.rs: the guard's error taxonomy. `ioErr` embeds
the `Io(io::Error)` variant; `parseErr` embeds `Parse(&'a str, de::Error)`,
carrying the raw received text and the codec's structured error. -/
inductive Error : Type
  | ioErr : IoError → Error
  | parseErr : String → CodecError → Error
deriving DecidableEq

/-- The `UrlEncoded<T>` wrapper: a transparent single-field container. -/
structure UrlEncoded (T : Type) : Type where
  val : T
deriving DecidableEq

/-- `UrlEncoded::into_inner`: consumes the wrapper and returns the item. -/
def UrlEncoded.into_inner {T : Type} (u : UrlEncoded T) : T := u.val

/-- `rocket::data::Limits`: the per-request configured size limits, a lookup
from configuration key to byte count. -/
structure Limits : Type where
  entries : List (String × Nat)
deriving DecidableEq

/-- `Limits::get(name)`: look a named limit up in the configuration. -/
def Limits.get (l : Limits) (name : String) : Option Nat :=
  l.entries.lookup name

/-- Modelled from the spec: `Limits::FORM`, the framework's built-in default
form limit used when no `form` configuration entry is present (32 KiB). -/
def Limits.FORM : Nat := 32768

/-- The request, reduced to what the guard reads from it: its limits. -/
structure Request : Type where
  limits : Limits
deriving DecidableEq

/-- The streaming body data source: either a byte stream with the given
content, or a source whose underlying read fails with an I/O error. -/
inductive DataSource : Type
  | bytes : String → DataSource
  | ioFail : IoError → DataSource
deriving DecidableEq

/-- `rocket::data::Capped<String>`: the text read by the bounded reader plus
the flag telling whether the source was exhausted within the limit. -/
structure Capped : Type where
  value : String
  complete : Bool
deriving DecidableEq

/-- Modelled from the spec: the Bounded Reader
(`data.open(limit).into_string()`, framework code outside this repository).
Per spec section 4.1 it reads at most `limit` units into memory; the buffer
is complete exactly when the source held no more data than the limit, and an
underlying I/O failure on the source surfaces as an I/O error. -/
def openIntoString (limit : Nat) : DataSource → Except IoError Capped
  | .bytes content =>
      .ok ⟨String.mk (content.toList.take limit), decide (content.length ≤ limit)⟩
  | .ioFail e => .error e

/-- `UrlEncoded::from_str` (src/lib.rs lines 160-164): delegate to the codec;
on codec failure produce `Error::Parse` carrying the original text unchanged
together with the codec's structured error. -/
def UrlEncoded.from_str {T : Type} (dec : String → Except CodecError T)
    (s : String) : Except Error (UrlEncoded T) :=
  match dec s with
  | .ok v => .ok ⟨v⟩
  | .error e => .error (.parseErr s e)

/-- The size limit resolved for a decode:
`req.limits().get("form").unwrap_or(Limits::FORM)` (src/lib.rs line 167). -/
def resolvedLimit (req : Request) : Nat :=
  (req.limits.get "form").getD Limits.FORM

/-- `UrlEncoded::from_data` (src/lib.rs lines 166-178): resolve the limit,
read the body through the bounded reader, turn an incomplete read into an
`UnexpectedEof` I/O error ("data limit exceeded"), and hand a complete text
to `from_str`. (`local_cache!` only scopes the buffer's ownership to the
request; for a single decode it is the identity on the string.) -/
def UrlEncoded.from_data {T : Type} (dec : String → Except CodecError T)
    (req : Request) (data : DataSource) : Except Error (UrlEncoded T) :=
  match openIntoString (resolvedLimit req) data with
  | .ok s =>
      if s.complete then UrlEncoded.from_str dec s.value
      else .error (.ioErr ⟨.unexpectedEof, "data limit exceeded"⟩)
  | .error e => .error (.ioErr e)

/-- `rocket::data::Outcome` as produced by the data guard: success with the
wrapper, or failure carrying a status (client-visible) and the error
(server-side, for catchers). `forward` exists in the framework type but is
never produced by this crate. -/
inductive Outcome (T : Type) : Type
  | success : T → Outcome T
  | failure : Status → Error → Outcome T
  | forward : Outcome T
deriving DecidableEq

/-- `<UrlEncoded<T> as FromData>::from_data` (src/lib.rs lines 185-197): run
the decode, then classify: `Io` error of kind `UnexpectedEof` → 413, `Parse`
→ 422 with the codec error logged server-side (`error_!`), any other error
(i.e. any other `Io`) → 400. The second component is the server-side log. -/
def FromData.from_data {T : Type} (dec : String → Except CodecError T)
    (req : Request) (data : DataSource) : Outcome (UrlEncoded T) × List String :=
  match UrlEncoded.from_data dec req data with
  | .ok value => (.success value, [])
  | .error (.ioErr e) =>
      if e.kind = IoErrorKind.unexpectedEof then
        (.failure .payloadTooLarge (.ioErr e), [])
      else
        (.failure .badRequest (.ioErr e), [])
  | .error (.parseErr s e) =>
      (.failure .unprocessableEntity (.parseErr s e), [e.msg])

/-- The content types this crate emits: `ContentType::Form`. -/
inductive ContentType : Type
  | form
deriving DecidableEq

/-- A framework response as built by the responder: content type and body. -/
structure Response : Type where
  contentType : ContentType
  body : String
deriving DecidableEq

/-- `<UrlEncoded<T> as Responder>::respond_to` (src/lib.rs lines 203-212):
serialize the wrapped value; on failure log the serialization error and
return only `Status::InternalServerError`; on success respond with the
serialized text under `ContentType::Form`. Second component is the log. -/
def Responder.respond_to {T : Type} (enc : T → Except SerError String)
    (v : UrlEncoded T) : Except Status Response × List String :=
  match enc v.val with
  | .error e =>
      (.error Status.internalServerError,
        ["UrlEncoding failed to serialize: " ++ e.msg])
  | .ok string => (.ok ⟨ContentType.form, string⟩, [])

/-- `<UrlEncoded<T> as UriDisplay<Query>>::fmt` (src/lib.rs lines 214-219):
serialize the wrapped value with the same codec encode and write the text to
the query formatter (`write_value`, modelled from the spec as emitting the
encoded text); a serialization failure becomes `fmt::Error`. -/
def UriDisplay.fmt {T : Type} (enc : T → Except SerError String)
    (v : UrlEncoded T) : Except Unit String :=
  match enc v.val with
  | .error _ => .error ()
  | .ok string => .ok string

/-- `rocket::form::Error`, reduced to the variants this crate produces: an
I/O-derived error or a custom error wrapping the codec error. -/
inductive FormError : Type
  | ioErr : IoError → FormError
  | custom : CodecError → FormError
deriving DecidableEq

/-- `impl From<Error> for form::Error` (src/lib.rs lines 262-269): `Io`
converts to the form I/O error, `Parse` drops the raw text and wraps the
codec error with `form::Error::custom`. -/
def formErrorFrom : Error → FormError
  | .ioErr e => .ioErr e
  | .parseErr _ e => .custom e

/-- `form::ValueField`: a single already-materialized field value. -/
structure ValueField : Type where
  name : String
  value : String
deriving DecidableEq

/-- `<UrlEncoded<T> as FromFormField>::from_value` (src/lib.rs lines
273-275): decode the field's text directly with `from_str`; the `?`
conversion turns an `Error` into a singleton `form::Errors` via
`formErrorFrom`. No reader and no size limit are involved. -/
def FromFormField.from_value {T : Type} (dec : String → Except CodecError T)
    (field : ValueField) : Except (List FormError) (UrlEncoded T) :=
  match UrlEncoded.from_str dec field.value with
  | .ok v => .ok v
  | .error e => .error [formErrorFrom e]

/-- `<UrlEncoded<T> as FromFormField>::from_data` (src/lib.rs lines
277-279): the streaming variant, delegating to `UrlEncoded::from_data` with
the same error conversion. -/
def FromFormField.from_data {T : Type} (dec : String → Except CodecError T)
    (req : Request) (data : DataSource) : Except (List FormError) (UrlEncoded T) :=
  match UrlEncoded.from_data dec req data with
  | .ok v => .ok v
  | .error e => .error [formErrorFrom e]

/-- Free function `from_slice` (src/lib.rs lines 312-318): decode raw bytes
directly through the codec, returning its structured error unmapped. -/
def from_slice {T : Type} (decBytes : List Nat → Except CodecError T)
    (slice : List Nat) : Except CodecError T :=
  decBytes slice

/-- Free function `from_str` (src/lib.rs lines 350-356): decode a string
directly through the codec, returning its structured error unmapped. -/
def from_str {T : Type} (dec : String → Except CodecError T)
    (string : String) : Except CodecError T :=
  dec string

/-! ### A concrete codec instance

The spec's concrete scenarios decode against a `{framework: string,
stars: integer}` target. `serde_urlencoded` is external, so a small codec
for exactly that target is modelled from the spec; it serves as the
concrete instance at which the generic theorems are witnessed. -/

/-- The concrete target type of the spec's scenarios. -/
structure Data : Type where
  framework : String
  stars : Nat
deriving DecidableEq

/-- Split a character list at every occurrence of a separator. -/
def splitOnChar (sep : Char) : List Char → List (List Char)
  | [] => [[]]
  | c :: rest =>
      let r := splitOnChar sep rest
      if c = sep then [] :: r
      else
        match r with
        | [] => [[c]]
        | g :: gs => (c :: g) :: gs

/-- The numeric value of a decimal digit character, if it is one. -/
def digitValue (c : Char) : Option Nat :=
  if '0' ≤ c ∧ c ≤ '9' then some (c.toNat - '0'.toNat) else none

/-- Accumulate a decimal number over a character list. -/
def natFromCharsAux : Nat → List Char → Option Nat
  | acc, [] => some acc
  | acc, c :: rest =>
      match digitValue c with
      | some d => natFromCharsAux (acc * 10 + d) rest
      | none => none

/-- Parse a nonempty all-digit character list as a natural number. -/
def natFromChars (cs : List Char) : Option Nat :=
  if cs.isEmpty then none else natFromCharsAux 0 cs

/-- Split one `key=value` chunk into its key and value. -/
def pairOfChunk (chunk : List Char) : Option (String × String) :=
  match splitOnChar '=' chunk with
  | [k, v] => some (String.mk k, String.mk v)
  | _ => none

/-- Modelled from the spec: the structured codec's decode for the
`{framework: string, stars: integer}` target (`serde_urlencoded::from_str`
instantiated at that target, which is external to the repository): split the
text on `&` into `key=value` pairs, read `framework` as a string and `stars`
as a decimal natural number, and report a structured error otherwise. -/
def decodeData (s : String) : Except CodecError Data :=
  match (splitOnChar '&' s.toList).mapM pairOfChunk with
  | none => .error ⟨"invalid key-value pair"⟩
  | some pairs =>
      match pairs.lookup "framework", pairs.lookup "stars" with
      | some f, some st =>
          match natFromChars st.toList with
          | some n => .ok ⟨f, n⟩
          | none => .error ⟨"invalid digit in value of stars: " ++ st⟩
      | none, _ => .error ⟨"missing field framework"⟩
      | some _, none => .error ⟨"missing field stars"⟩

/-- Modelled from the spec: the structured codec's encode for the same
target (`serde_urlencoded::to_string`, external to the repository). -/
def encodeData (d : Data) : Except SerError String :=
  .ok ("framework=" ++ d.framework ++ "&stars=" ++ toString d.stars)

/-- Modelled from the spec: the byte-level decode for the same target
(`serde_urlencoded::from_bytes`): decode the bytes read as characters. -/
def decodeDataBytes (b : List Nat) : Except CodecError Data :=
  decodeData (String.mk (b.map Char.ofNat))

/-- An instance of the opaque serializer that rejects every value (a value
not representable in the encoding), exercising the failure branch of the
outbound path. -/
def failingEncode (_ : Data) : Except SerError String :=
  .error ⟨"unsupported value"⟩

end RocketEnumform

namespace RocketEnumform

/-! ### Helper lemmas about the body path -/

/-- Rebuilding a string from its character list is the identity. -/
theorem string_mk_toList (s : String) : String.mk s.toList = s := rfl

/-- A body no longer than the resolved limit is read completely and handed,
unchanged, to `from_str`. -/
theorem from_data_bytes_of_le {T : Type} (dec : String → Except CodecError T)
    (req : Request) (content : String)
    (h : content.length ≤ resolvedLimit req) :
    UrlEncoded.from_data dec req (.bytes content) = UrlEncoded.from_str dec content := by
  have hc : decide (content.length ≤ resolvedLimit req) = true := decide_eq_true h
  have hv : String.mk (List.take (resolvedLimit req) content.data) = content := by
    rw [List.take_of_length_le h]
  simp [UrlEncoded.from_data, openIntoString, hc, hv]

/-- A body longer than the resolved limit yields exactly the
`UnexpectedEof` I/O error, independently of the decoder. -/
theorem from_data_bytes_of_gt {T : Type} (dec : String → Except CodecError T)
    (req : Request) (content : String)
    (h : resolvedLimit req < content.length) :
    UrlEncoded.from_data dec req (.bytes content) =
      .error (.ioErr ⟨.unexpectedEof, "data limit exceeded"⟩) := by
  have hc : decide (content.length ≤ resolvedLimit req) = false :=
    decide_eq_false (Nat.not_le.mpr h)
  simp [UrlEncoded.from_data, openIntoString, hc]

/-- Claim C1: through the data-guard entry point, the outcome is classified
in priority order: an I/O error of kind unexpected-end-of-input maps to
payload-too-large (413); a Parse error maps to unprocessable-entity (422)
with the codec error logged server-side while the client-visible part of the
failure is the mapped status; any other I/O error maps to bad-request (400). -/
theorem c1_data_guard_status_mapping {T : Type} (dec : String → Except CodecError T)
    (req : Request) (data : DataSource) :
    (∀ e : IoError, UrlEncoded.from_data dec req data = .error (.ioErr e) →
      e.kind = IoErrorKind.unexpectedEof →
      FromData.from_data dec req data =
        (.failure Status.payloadTooLarge (.ioErr e), []) ∧
      Status.payloadTooLarge.code = 413) ∧
    (∀ (s : String) (e : CodecError),
      UrlEncoded.from_data dec req data = .error (.parseErr s e) →
      FromData.from_data dec req data =
        (.failure Status.unprocessableEntity (.parseErr s e), [e.msg]) ∧
      Status.unprocessableEntity.code = 422) ∧
    (∀ e : IoError, UrlEncoded.from_data dec req data = .error (.ioErr e) →
      e.kind ≠ IoErrorKind.unexpectedEof →
      FromData.from_data dec req data =
        (.failure Status.badRequest (.ioErr e), []) ∧
      Status.badRequest.code = 400) := by
  refine ⟨?_, ?_, ?_⟩
  · intro e h hk
    simp [FromData.from_data, h, hk, Status.code]
  · intro s e h
    simp [FromData.from_data, h, Status.code]
  · intro e h hk
    simp [FromData.from_data, h, hk, Status.code]

/-- Witness for C1: the three branches at concrete inputs — an oversized
body, a malformed body, and a failing data source. -/
theorem c1_data_guard_status_mapping_witness :
    FromData.from_data decodeData ⟨⟨[("form", 5)]⟩⟩
        (DataSource.bytes "framework=X&stars=5") =
      (.failure Status.payloadTooLarge
        (.ioErr ⟨.unexpectedEof, "data limit exceeded"⟩), []) ∧
    FromData.from_data decodeData ⟨⟨[("form", 100)]⟩⟩
        (DataSource.bytes "framework=X&stars=notanumber") =
      (.failure Status.unprocessableEntity
        (.parseErr "framework=X&stars=notanumber"
          ⟨"invalid digit in value of stars: notanumber"⟩),
        ["invalid digit in value of stars: notanumber"]) ∧
    FromData.from_data decodeData ⟨⟨[]⟩⟩
        (DataSource.ioFail ⟨.other 0, "connection reset"⟩) =
      (.failure Status.badRequest (.ioErr ⟨.other 0, "connection reset"⟩), []) :=
  ⟨((c1_data_guard_status_mapping decodeData ⟨⟨[("form", 5)]⟩⟩
      (DataSource.bytes "framework=X&stars=5")).1
      ⟨.unexpectedEof, "data limit exceeded"⟩ rfl rfl).1,
   ((c1_data_guard_status_mapping decodeData ⟨⟨[("form", 100)]⟩⟩
      (DataSource.bytes "framework=X&stars=notanumber")).2.1
      "framework=X&stars=notanumber"
      ⟨"invalid digit in value of stars: notanumber"⟩ rfl).1,
   ((c1_data_guard_status_mapping decodeData ⟨⟨[]⟩⟩
      (DataSource.ioFail ⟨.other 0, "connection reset"⟩)).2.2
      ⟨.other 0, "connection reset"⟩ rfl (by decide)).1⟩

end RocketEnumform

namespace RocketEnumform

/-- Claim C2: for a body stream of length L under resolved limit M, the read
reaches the decoder iff L ≤ M: when L ≤ M the decode equals `from_str` on
the complete body; when L > M the result is exactly the `UnexpectedEof`
payload-too-large outcome — for every decoder `dec`, so no byte of the body
reaches the structured decoder — never bad-request or a generic failure. -/
theorem c2_size_enforcement {T : Type} (dec : String → Except CodecError T)
    (req : Request) (content : String) :
    (content.length ≤ resolvedLimit req →
      UrlEncoded.from_data dec req (.bytes content) = UrlEncoded.from_str dec content) ∧
    (resolvedLimit req < content.length →
      UrlEncoded.from_data dec req (.bytes content) =
        .error (.ioErr ⟨.unexpectedEof, "data limit exceeded"⟩) ∧
      FromData.from_data dec req (.bytes content) =
        (.failure Status.payloadTooLarge
          (.ioErr ⟨.unexpectedEof, "data limit exceeded"⟩), [])) := by
  refine ⟨fun h => from_data_bytes_of_le dec req content h, fun h => ⟨?_, ?_⟩⟩
  · exact from_data_bytes_of_gt dec req content h
  · simp [FromData.from_data, from_data_bytes_of_gt dec req content h]

/-- Witness for C2: the spec's concrete scenario — a body of 10 bytes
against a configured limit of 5 yields payload-too-large — plus a body
within the limit reaching `from_str` whole. -/
theorem c2_size_enforcement_witness :
    UrlEncoded.from_data decodeData ⟨⟨[("form", 5)]⟩⟩ (DataSource.bytes "0123456789") =
      .error (.ioErr ⟨.unexpectedEof, "data limit exceeded"⟩) ∧
    FromData.from_data decodeData ⟨⟨[("form", 5)]⟩⟩ (DataSource.bytes "0123456789") =
      (.failure Status.payloadTooLarge
        (.ioErr ⟨.unexpectedEof, "data limit exceeded"⟩), []) ∧
    UrlEncoded.from_data decodeData ⟨⟨[("form", 100)]⟩⟩
        (DataSource.bytes "framework=X&stars=5") =
      UrlEncoded.from_str decodeData "framework=X&stars=5" :=
  ⟨((c2_size_enforcement decodeData ⟨⟨[("form", 5)]⟩⟩ "0123456789").2 (by decide)).1,
   ((c2_size_enforcement decodeData ⟨⟨[("form", 5)]⟩⟩ "0123456789").2 (by decide)).2,
   (c2_size_enforcement decodeData ⟨⟨[("form", 100)]⟩⟩ "framework=X&stars=5").1
     (by decide)⟩

/-- Claim C3: whenever the codec fails on an input text, the guard's
`from_str` produces a Parse error carrying the full original input text
unchanged together with the codec's structured error. -/
theorem c3_parse_error_carries_raw_text {T : Type}
    (dec : String → Except CodecError T) (s : String) (e : CodecError)
    (h : dec s = .error e) :
    UrlEncoded.from_str dec s = .error (.parseErr s e) := by
  simp [UrlEncoded.from_str, h]

/-- Witness for C3: the spec's concrete scenario — decoding
`framework=X&stars=notanumber` against the `{framework, stars}` target
yields a Parse failure whose raw text equals the input. -/
theorem c3_parse_error_carries_raw_text_witness :
    UrlEncoded.from_str decodeData "framework=X&stars=notanumber" =
      .error (.parseErr "framework=X&stars=notanumber"
        ⟨"invalid digit in value of stars: notanumber"⟩) :=
  c3_parse_error_carries_raw_text decodeData "framework=X&stars=notanumber"
    ⟨"invalid digit in value of stars: notanumber"⟩ rfl

/-- Claim C4: the size limit is resolved from the configuration key `form`;
when that entry is absent the built-in default form limit is used, so a body
at or below the default length reaches the decoder whole (decoding subject
only to parse success) and a longer body fails as truncated. -/
theorem c4_limit_resolution {T : Type} (dec : String → Except CodecError T)
    (req : Request) (content : String) :
    (∀ M : Nat, req.limits.get "form" = some M → resolvedLimit req = M) ∧
    (req.limits.get "form" = none →
      resolvedLimit req = Limits.FORM ∧
      (content.length ≤ Limits.FORM →
        UrlEncoded.from_data dec req (.bytes content) =
          UrlEncoded.from_str dec content) ∧
      (Limits.FORM < content.length →
        UrlEncoded.from_data dec req (.bytes content) =
          .error (.ioErr ⟨.unexpectedEof, "data limit exceeded"⟩))) := by
  refine ⟨fun M hM => ?_, fun hnone => ?_⟩
  · simp [resolvedLimit, hM]
  · have hr : resolvedLimit req = Limits.FORM := by simp [resolvedLimit, hnone]
    refine ⟨hr, fun h => ?_, fun h => ?_⟩
    · exact from_data_bytes_of_le dec req content (hr ▸ h)
    · exact from_data_bytes_of_gt dec req content (hr ▸ h)

/-- Witness for C4: with no `form` entry the default 32 KiB limit governs —
a short body decodes through `from_str`, a 32769-character body fails as
truncated — and a configured `form` entry overrides the default. -/
theorem c4_limit_resolution_witness :
    resolvedLimit ⟨⟨[]⟩⟩ = Limits.FORM ∧
    UrlEncoded.from_data decodeData ⟨⟨[]⟩⟩ (DataSource.bytes "framework=X&stars=5") =
      UrlEncoded.from_str decodeData "framework=X&stars=5" ∧
    UrlEncoded.from_data decodeData ⟨⟨[]⟩⟩
        (DataSource.bytes (String.mk (List.replicate 32769 'a'))) =
      .error (.ioErr ⟨.unexpectedEof, "data limit exceeded"⟩) ∧
    resolvedLimit ⟨⟨[("form", 5)]⟩⟩ = 5 :=
  ⟨((c4_limit_resolution decodeData ⟨⟨[]⟩⟩ "framework=X&stars=5").2 rfl).1,
   ((c4_limit_resolution decodeData ⟨⟨[]⟩⟩ "framework=X&stars=5").2 rfl).2.1
     (by decide),
   ((c4_limit_resolution decodeData ⟨⟨[]⟩⟩
       (String.mk (List.replicate 32769 'a'))).2 rfl).2.2
     (by show Limits.FORM < (List.replicate 32769 'a').length
         rw [List.length_replicate]
         decide),
   (c4_limit_resolution decodeData ⟨⟨[("form", 5)]⟩⟩ "").1 5 rfl⟩

/-- Claim C5: for every value whose structured representation is lossless
under the codec (encoding succeeds and decoding the produced text returns
the value), the guard's decode of the text produced by its encode path
yields the original value: the responder emits exactly the encoded text as
the form-typed body, and `from_str` on that text returns the value. -/
theorem c5_round_trip {T : Type} (enc : T → Except SerError String)
    (dec : String → Except CodecError T) (v : T) (s : String)
    (henc : enc v = .ok s) (hdec : dec s = .ok v) :
    Responder.respond_to enc ⟨v⟩ = (.ok ⟨ContentType.form, s⟩, []) ∧
    UrlEncoded.from_str dec s = .ok ⟨v⟩ := by
  constructor
  · simp [Responder.respond_to, henc]
  · simp [UrlEncoded.from_str, hdec]

/-- Witness for C5: the `{framework, stars}` codec round-trips the value
`⟨"X", 5⟩` through encode and decode. -/
theorem c5_round_trip_witness :
    Responder.respond_to encodeData ⟨⟨"X", 5⟩⟩ =
      (.ok ⟨ContentType.form, "framework=X&stars=5"⟩, []) ∧
    UrlEncoded.from_str decodeData "framework=X&stars=5" = .ok ⟨⟨"X", 5⟩⟩ :=
  c5_round_trip encodeData decodeData ⟨"X", 5⟩ "framework=X&stars=5" rfl rfl

end RocketEnumform

namespace RocketEnumform

/-- Claim C6: single-value field decoding (`from_value`) bypasses size
limiting entirely: no request, limit, or reader is consulted — for every
field, however large, the result is determined purely by parse correctness,
with the body path's Parse-error semantics (the codec error wrapped as a
custom form error), so the I/O-truncation outcome is unreachable here. -/
theorem c6_from_value_bypasses_size_limit {T : Type}
    (dec : String → Except CodecError T) (field : ValueField) :
    (∀ v : T, dec field.value = .ok v →
      FromFormField.from_value dec field = .ok ⟨v⟩) ∧
    (∀ e : CodecError, dec field.value = .error e →
      FromFormField.from_value dec field = .error [FormError.custom e]) := by
  constructor
  · intro v h
    simp [FromFormField.from_value, UrlEncoded.from_str, h]
  · intro e h
    simp [FromFormField.from_value, UrlEncoded.from_str, h, formErrorFrom]

/-- Witness for C6: a well-formed and a malformed field value, decoded
directly with no limit in sight. -/
theorem c6_from_value_bypasses_size_limit_witness :
    FromFormField.from_value decodeData ⟨"payload", "framework=X&stars=5"⟩ =
      .ok ⟨⟨"X", 5⟩⟩ ∧
    FromFormField.from_value decodeData ⟨"payload", "framework=X&stars=notanumber"⟩ =
      .error [FormError.custom ⟨"invalid digit in value of stars: notanumber"⟩] :=
  ⟨(c6_from_value_bypasses_size_limit decodeData
      ⟨"payload", "framework=X&stars=5"⟩).1 ⟨"X", 5⟩ rfl,
   (c6_from_value_bypasses_size_limit decodeData
      ⟨"payload", "framework=X&stars=notanumber"⟩).2
      ⟨"invalid digit in value of stars: notanumber"⟩ rfl⟩

/-- Claim C7: on the outbound path, a serialization failure yields exactly
the internal-server-error status (500) — the error value carries no body,
only the status — with the serialization error logged server-side; a
successful serialization yields the serialized text as the body, tagged
with the form content type. -/
theorem c7_responder_encode_path {T : Type} (enc : T → Except SerError String)
    (v : T) :
    (∀ s : String, enc v = .ok s →
      Responder.respond_to enc ⟨v⟩ = (.ok ⟨ContentType.form, s⟩, [])) ∧
    (∀ e : SerError, enc v = .error e →
      Responder.respond_to enc ⟨v⟩ =
        (.error Status.internalServerError,
          ["UrlEncoding failed to serialize: " ++ e.msg]) ∧
      Status.internalServerError.code = 500) := by
  constructor
  · intro s h
    simp [Responder.respond_to, h]
  · intro e h
    simp [Responder.respond_to, h, Status.code]

/-- Witness for C7: the success branch with the concrete codec, and the
failure branch with a serializer that rejects its value. -/
theorem c7_responder_encode_path_witness :
    Responder.respond_to encodeData ⟨⟨"X", 5⟩⟩ =
      (.ok ⟨ContentType.form, "framework=X&stars=5"⟩, []) ∧
    Responder.respond_to failingEncode ⟨⟨"X", 5⟩⟩ =
      (.error Status.internalServerError,
        ["UrlEncoding failed to serialize: " ++ "unsupported value"]) :=
  ⟨(c7_responder_encode_path encodeData ⟨"X", 5⟩).1 "framework=X&stars=5" rfl,
   ((c7_responder_encode_path failingEncode ⟨"X", 5⟩).2
      ⟨"unsupported value"⟩ rfl).1⟩

/-- Claim C8: the crate's free decode functions over raw bytes
(`from_slice`) and over a string (`from_str`) return the codec's result —
in particular its structured error — unchanged, bypassing the guard's
wrapping and status mapping: on the same failing input the guard's
`from_str` wraps the codec error into a Parse error, while the free
function hands the structured error to the caller directly. -/
theorem c8_free_decode_functions {T : Type}
    (decBytes : List Nat → Except CodecError T)
    (dec : String → Except CodecError T) :
    (∀ b : List Nat, from_slice decBytes b = decBytes b) ∧
    (∀ s : String, from_str dec s = dec s) ∧
    (∀ (s : String) (e : CodecError), dec s = .error e →
      from_str dec s = .error e ∧
      UrlEncoded.from_str dec s = .error (.parseErr s e)) := by
  refine ⟨fun b => rfl, fun s => rfl, fun s e h => ⟨h, ?_⟩⟩
  simp [UrlEncoded.from_str, h]

/-- Witness for C8: on a malformed input, the free byte and string decoders
surface the structured codec error itself, where the guard path wraps it. -/
theorem c8_free_decode_functions_witness :
    from_slice decodeDataBytes ("framework=X&stars=bad".toList.map Char.toNat) =
      .error ⟨"invalid digit in value of stars: bad"⟩ ∧
    from_str decodeData "framework=X&stars=bad" =
      .error ⟨"invalid digit in value of stars: bad"⟩ ∧
    UrlEncoded.from_str decodeData "framework=X&stars=bad" =
      .error (.parseErr "framework=X&stars=bad"
        ⟨"invalid digit in value of stars: bad"⟩) :=
  ⟨(c8_free_decode_functions decodeDataBytes decodeData).1
      ("framework=X&stars=bad".toList.map Char.toNat),
   ((c8_free_decode_functions decodeDataBytes decodeData).2.2
      "framework=X&stars=bad" ⟨"invalid digit in value of stars: bad"⟩ rfl).1,
   ((c8_free_decode_functions decodeDataBytes decodeData).2.2
      "framework=X&stars=bad" ⟨"invalid digit in value of stars: bad"⟩ rfl).2⟩

/-- Claim C9: for every serializable wrapped value, the text rendered into
the URI query-string representation equals the body text produced by the
outbound responder: both paths apply the same codec encode to the inner
value. -/
theorem c9_uri_display_matches_body {T : Type} (enc : T → Except SerError String)
    (v : T) (s : String) (h : enc v = .ok s) :
    UriDisplay.fmt enc ⟨v⟩ = .ok s ∧
    (Responder.respond_to enc ⟨v⟩).1 = .ok ⟨ContentType.form, s⟩ := by
  constructor
  · simp [UriDisplay.fmt, h]
  · simp [Responder.respond_to, h]

/-- Witness for C9: the query rendering and the response body agree on the
concrete value `⟨"X", 5⟩`. -/
theorem c9_uri_display_matches_body_witness :
    UriDisplay.fmt encodeData ⟨⟨"X", 5⟩⟩ = .ok "framework=X&stars=5" ∧
    (Responder.respond_to encodeData ⟨⟨"X", 5⟩⟩).1 =
      .ok ⟨ContentType.form, "framework=X&stars=5"⟩ :=
  c9_uri_display_matches_body encodeData ⟨"X", 5⟩ "framework=X&stars=5" rfl

/-- Claim C10: every failure of the single-value entry point `from_value` is
Parse-derived: it is the singleton custom form error wrapping the codec's
structured error on the field's value; the I/O branch of the `Error` to
`form::Error` conversion is unreachable in this mode. -/
theorem c10_from_value_failures_parse_derived {T : Type}
    (dec : String → Except CodecError T) (field : ValueField)
    (errs : List FormError)
    (h : FromFormField.from_value dec field = .error errs) :
    ∃ e : CodecError, dec field.value = .error e ∧
      errs = [FormError.custom e] := by
  cases hd : dec field.value with
  | ok v =>
      exfalso
      simp [FromFormField.from_value, UrlEncoded.from_str, hd] at h
  | error e =>
      refine ⟨e, rfl, ?_⟩
      simp [FromFormField.from_value, UrlEncoded.from_str, hd, formErrorFrom] at h
      simp [h]

/-- Witness for C10: the malformed concrete field fails with exactly the
custom-wrapped codec error. -/
theorem c10_from_value_failures_parse_derived_witness :
    ∃ e : CodecError,
      decodeData "framework=X&stars=notanumber" = .error e ∧
      ([FormError.custom ⟨"invalid digit in value of stars: notanumber"⟩]
        : List FormError) = [FormError.custom e] :=
  c10_from_value_failures_parse_derived decodeData
    ⟨"payload", "framework=X&stars=notanumber"⟩
    [FormError.custom ⟨"invalid digit in value of stars: notanumber"⟩] rfl

end RocketEnumform
